import Mathlib

/-!
Verification of the `debrebuild` reproducible-build resolver
(a single-file Python program, `debrebuild.py`) against its
natural-language specification.

The Python source is shallowly embedded below: pure fragments become Lean
functions, dict/list state becomes association lists and explicit state
passing, and raised exceptions become `Except`/error sums.  Python `dict`
is modelled as an association list with in-place overwrite (`assocUpdate`),
which matches insertion-ordered CPython dictionaries.  A raw Python
`d[k]` lookup that can fail is modelled with an explicit `keyError`-style
error constructor, distinct from the program's own `RebuilderException`
constructors.
-/

set_option autoImplicit false

namespace Debrebuild

universe u v

instance {ε : Type u} {α : Type v} [DecidableEq ε] [DecidableEq α] :
    DecidableEq (Except ε α)
  | .error e, .error e' => decidable_of_iff (e = e') (by simp)
  | .error _, .ok _ => isFalse (by simp)
  | .ok _, .error _ => isFalse (by simp)
  | .ok a, .ok a' => decidable_of_iff (a = a') (by simp)

/-- First-match lookup in an association list; models Python `d.get(k)` /
`d[k]` (the latter raising `KeyError` when the result is `none`). -/
def lookupD {α : Type u} : List (String × α) → String → Option α
  | [], _ => none
  | (k', v) :: rest, k => if k' = k then some v else lookupD rest k

/-- Models Python `d[k] = v` on an insertion-ordered dict: overwrite the
first occurrence in place, otherwise append at the end. -/
def assocUpdate {α : Type u} : List (String × α) → String → α → List (String × α)
  | [], k, v => [(k, v)]
  | (k', v') :: rest, k, v =>
      if k' = k then (k, v) :: rest else (k', v') :: assocUpdate rest k v

/-- Models Python `str.endswith(suffix)`. -/
def pyEndsWith (s suf : String) : Bool :=
  suf.data.isSuffixOf s.data

/-- Models Python `str.startswith(prefix)`. -/
def pyStartsWith (s pre : String) : Bool :=
  pre.data.isPrefixOf s.data

/-- Models Python `str.strip()` on a character list: drop whitespace from
both ends. -/
def pyStripL (l : List Char) : List Char :=
  ((l.dropWhile Char.isWhitespace).reverse.dropWhile Char.isWhitespace).reverse

/-- Models Python `str.strip()`. -/
def pyStrip (s : String) : String :=
  ⟨pyStripL s.data⟩

/-- Worker for `pySplit`: whitespace-split with no empty fields,
accumulating the current token reversed in `cur`. -/
def wsSplitGo (cur : List Char) : List Char → List (List Char)
  | [] => if cur.isEmpty then [] else [cur.reverse]
  | c :: rest =>
      if c.isWhitespace then
        if cur.isEmpty then wsSplitGo [] rest else cur.reverse :: wsSplitGo [] rest
      else wsSplitGo (c :: cur) rest

/-- Models Python `str.split()` (split on runs of whitespace, dropping
empty tokens). -/
def pySplit (s : String) : List String :=
  (wsSplitGo [] s.data).map (fun l => ⟨l⟩)

/-- Worker for `pyLines`: split on `'\n'`, keeping empty fields, as Python
`str.split('\n')` does. -/
def splitNlGo (cur : List Char) : List Char → List (List Char)
  | [] => [cur.reverse]
  | c :: rest =>
      if c = '\n' then cur.reverse :: splitNlGo [] rest
      else splitNlGo (c :: cur) rest

/-- Models `value.lstrip('\n').split('\n')` applied to a folded field
value, yielding the folded lines. -/
def pyLines (s : String) : List (List Char) :=
  splitNlGo [] (s.data.dropWhile (fun c => c = '\n'))

/-- Models `field.replace('Checksums-', '')`: remove every (non-overlapping,
left-to-right) occurrence of the literal `Checksums-`. -/
def removeChecksumsTag : List Char → List Char
  | 'C' :: 'h' :: 'e' :: 'c' :: 'k' :: 's' :: 'u' :: 'm' :: 's' :: '-' :: rest =>
      removeChecksumsTag rest
  | c :: rest => c :: removeChecksumsTag rest
  | [] => []

/-- Models `str.lower()` (ASCII). -/
def pyLower (l : List Char) : List Char :=
  l.map Char.toLower

/-- Zero-pad a number to two digits, as `strftime` `%m`/`%d`/`%H`/`%M`/`%S` do. -/
def pad2 (n : Nat) : String :=
  if n < 10 then "0" ++ toString n else toString n

/-- Zero-pad a number to four digits, as `strftime` `%Y` does. -/
def pad4 (n : Nat) : String :=
  if n < 10 then "000" ++ toString n
  else if n < 100 then "00" ++ toString n
  else if n < 1000 then "0" ++ toString n
  else toString n

/-- The prefix of `l` before the last occurrence of `c`, if any; models
the reach of a greedy `(.*)` immediately followed by the literal `c`. -/
def beforeLastChar (c : Char) : List Char → Option (List Char)
  | [] => none
  | a :: rest =>
      match beforeLastChar c rest with
      | some v => some (a :: v)
      | none => if a = c then some [] else none

/-- Models a match of the Python regex fragment
`(.*)<sep>(.*)<close>` with both groups greedy and no end anchor, as used
by `re.match` in `debrebuild.py`: the match picks the **last** occurrence
of `sep` followed (anywhere later) by `close`; group 1 is everything
before that occurrence, group 2 everything after it up to the **last**
`close`.  `acc` accumulates group 1. -/
def matchLastSep (sep : List Char) (close : Char) (acc : List Char) :
    List Char → Option (List Char × List Char)
  | [] => none
  | c :: rest =>
      match matchLastSep sep close (acc ++ [c]) rest with
      | some r => some r
      | none =>
          if sep.isPrefixOf (c :: rest) then
            match beforeLastChar close ((c :: rest).drop sep.length) with
            | some v => some (acc, v)
            | none => none
          else none

/-- Exceptions raised while parsing a buildinfo file
(`BuildInfoException` in the source), plus explicit constructors for the
raw Python `IndexError`/`TypeError` escapes of the same code. -/
inductive BuildInfoErr where
  /-- `"Cannot parse package: …"` for a malformed `Installed-Build-Depends` line. -/
  | cannotParsePackage
  /-- `"More than one architecture in Architecture field"`. -/
  | multipleArch
  /-- `"Need Build-Architecture field"`. -/
  | needBuildArch
  /-- `"Cannot determine Debian version"`. -/
  | unknownBaseFiles
  /-- Python `IndexError` from `parsed_line[2]` on a short checksum line. -/
  | pyIndexError
  /-- Python `TypeError` from iterating `self.architecture = None`. -/
  | pyTypeError
  deriving DecidableEq, Repr

/-- `Package` from `debrebuild.py` (the snapshot-client fields
`first_seen` and `hash` start as `None`). -/
structure Package where
  name : String
  version : String
  architecture : Option String := none
  first_seen : Option String := none
  hash : Option String := none
  deriving DecidableEq, Repr

/-- `DEBIAN_VERSION` from `debrebuild.py`, as an insertion-ordered dict. -/
def DEBIAN_VERSION : List (String × String) :=
  [("6", "squeeze"), ("7", "wheezy"), ("8", "jessie"), ("9", "stretch"),
   ("10", "buster"), ("11", "bullseye"), ("12", "bookworm")]

/-- `parsePkgBuildDepend` from `debrebuild.py`:
`re.match(r'^(.*) \(= (.*)\),*', pkg)`, i.e. greedy group 1 before the
last viable `" (= "`, greedy group 2 before the last `')'`; both groups
stripped. -/
def parsePkgBuildDepend (pkg : String) : Option Package :=
  match matchLastSep [' ', '(', '=', ' '] ')' [] pkg.data with
  | some (g1, g2) => some { name := ⟨pyStripL g1⟩, version := ⟨pyStripL g2⟩ }
  | none => none

/-- The `Environment` line regex `re.match(r'^[^=](.*)="(.*)"', line)`:
the first character (any character except `'='`) is consumed and **not**
part of group 1. -/
def envMatchLine (line : List Char) : Option (List Char × List Char) :=
  match line with
  | [] => none
  | c :: rest => if c = '=' then none else matchLastSep ['=', '"'] '"' [] rest

/-- Processing of one folded `Environment` line: on a regex match store
`env[group1.strip()] = group2.strip()`; otherwise the line is skipped. -/
def envLineStep (env : List (String × String)) (line : List Char) :
    List (String × String) :=
  match envMatchLine line with
  | some (k, v) => assocUpdate env ⟨pyStripL k⟩ ⟨pyStripL v⟩
  | none => env

/-- The `Environment` field handler: fold `envLineStep` over the folded
lines of the field value. -/
def envItemApply (env : List (String × String)) (value : String) :
    List (String × String) :=
  (pyLines value).foldl envLineStep env

/-- The per-file checksum property map: `{"size": …, "<alg>": …}`. -/
abbrev Props := List (String × String)

/-- The aggregated `checksums` map: filename to property map. -/
abbrev Checksums := List (String × Props)

/-- Processing of one folded `Checksums-<alg>` line (already
whitespace-split into `toks`): `toks = [hash, size, filename, …]`.
Creates the per-file dict if absent/empty, then
`update({"size": size, alg: hash})`.  Fewer than three tokens raises
`IndexError`. -/
def checksumLineApply (cs : Checksums) (alg : String) (toks : List String) :
    Except BuildInfoErr Checksums :=
  match toks.get? 2, toks.get? 1, toks.get? 0 with
  | some f, some sz, some hv =>
      let cur := (lookupD cs f).getD []
      let cs1 := if cur = [] then assocUpdate cs f [] else cs
      let props := (lookupD cs1 f).getD []
      .ok (assocUpdate cs1 f (assocUpdate (assocUpdate props "size" sz) alg hv))
  | _, _, _ => .error .pyIndexError

/-- Fold `checksumLineApply` over folded checksum lines. -/
def checksumLinesApply (alg : String) (cs : Checksums) :
    List (List Char) → Except BuildInfoErr Checksums
  | [] => .ok cs
  | line :: rest =>
      match checksumLineApply cs alg (pySplit ⟨line⟩) with
      | .error e => .error e
      | .ok cs' => checksumLinesApply alg cs' rest

/-- The `Checksums-<alg>` field handler: derive `alg` from the field name
(`item[0].replace('Checksums-', '').lower()`) and fold
`checksumLineApply` over the folded lines. -/
def checksumsItemApply (cs : Checksums) (field value : String) :
    Except BuildInfoErr Checksums :=
  checksumLinesApply ⟨pyLower (removeChecksumsTag field.data)⟩ cs (pyLines value)

/-- Fold `parsePkgBuildDepend` over folded dependency lines; a
non-matching line raises `"Cannot parse package"`. -/
def buildDependsLinesApply (deps : List Package) :
    List (List Char) → Except BuildInfoErr (List Package)
  | [] => .ok deps
  | line :: rest =>
      match parsePkgBuildDepend ⟨line⟩ with
      | some pkg => buildDependsLinesApply (deps ++ [pkg]) rest
      | none => .error .cannotParsePackage

/-- The `Installed-Build-Depends` field handler. -/
def buildDependsItemApply (deps : List Package) (value : String) :
    Except BuildInfoErr (List Package) :=
  buildDependsLinesApply deps (pyLines value)

/-- The mutable fields of `BuildInfo.__init__` while scanning paragraph
items, all starting as `None`/empty as in the constructor. -/
structure RawBI where
  source : Option String := none
  architecture : Option (List String) := none
  binary : Option (List String) := none
  version : Option String := none
  build_path : Option String := none
  build_arch : Option String := none
  build_date : Option String := none
  host_arch : Option String := none
  checksums : Checksums := []
  build_depends : List Package := []
  env : List (String × String) := []
  deriving DecidableEq, Repr

/-- One paragraph item `(field, value)` dispatched through the chain of
independent `if item[0] == …` statements of `BuildInfo.__init__`. -/
def itemApply (raw : RawBI) (field value : String) : Except BuildInfoErr RawBI :=
  let r := raw
  let r := if field = "Source" then { r with source := some value } else r
  let r := if field = "Architecture" then { r with architecture := some (pySplit value) } else r
  let r := if field = "Binary" then { r with binary := some (pySplit value) } else r
  let r := if field = "Version" then { r with version := some value } else r
  let r := if field = "Build-Path" then { r with build_path := some value } else r
  let r := if field = "Build-Architecture" then { r with build_arch := some value } else r
  let r := if field = "Build-Date" then { r with build_date := some value } else r
  let r := if field = "Host-Architecture" then { r with host_arch := some value } else r
  match (if pyStartsWith field "Checksums-" then checksumsItemApply r.checksums field value else .ok r.checksums) with
  | .error e => .error e
  | .ok cs =>
    let r := { r with checksums := cs }
    match (if field = "Installed-Build-Depends" then buildDependsItemApply r.build_depends value else .ok r.build_depends) with
    | .error e => .error e
    | .ok deps =>
      let r := { r with build_depends := deps }
      let r := if field = "Environment" then { r with env := envItemApply r.env value } else r
      .ok r

/-- Scan all paragraph items in order. -/
def itemsApply (raw : RawBI) : List (String × String) → Except BuildInfoErr RawBI
  | [] => .ok raw
  | (f, v) :: rest =>
      match itemApply raw f v with
      | .error e => .error e
      | .ok r => itemsApply r rest

/-- The architecture post-processing of `BuildInfo.__init__`
(lines 191-202): `build_source`/`build_archall` require **exactly one**
occurrence of the token, the concrete architectures are what remains
after filtering `"source"`/`"all"` out, more than one concrete
architecture raises, and `build_archany` means exactly one remains.
Returns `(build_source, build_archall, build_archany, architecture)`. -/
def extractArchFlags (arch : List String) :
    Except BuildInfoErr (Bool × Bool × Bool × List String) :=
  let bsource := (arch.filter (fun a => a == "source")).length == 1
  let barchall := (arch.filter (fun a => a == "all")).length == 1
  let rest := arch.filter (fun a => !(a == "source") && !(a == "all"))
  if rest.length > 1 then .error .multipleArch
  else .ok (bsource, barchall, rest.length == 1, rest)

/-- Models Python `"{}".format(x)` where `x` may be `None`. -/
def pyFormatOpt : Option String → String
  | some s => s
  | none => "None"

/-- The fully parsed and validated `BuildInfo` model. -/
structure BuildInfoM where
  source : Option String
  architecture : List String
  build_source : Bool
  build_archall : Bool
  build_archany : Bool
  binary : Option (List String)
  version : Option String
  build_path : String
  build_arch : String
  build_date : Option String
  host_arch : String
  checksums : Checksums
  build_depends : List Package
  env : List (String × String)
  deriving DecidableEq, Repr

/-- `BuildInfo.__init__` on a pre-split list of paragraph items (the
`Deb822` control-file scanning itself is out of scope); `randname` stands
for the random `tempfile` token used in the default build path.
Iterating `self.architecture = None` is the Python `TypeError` escape,
and a missing `Build-Architecture` raises `"Need Build-Architecture
field"`. -/
def parseBuildInfo (randname : String) (items : List (String × String)) :
    Except BuildInfoErr BuildInfoM :=
  match itemsApply {} items with
  | .error e => .error e
  | .ok raw =>
    match raw.architecture with
    | none => .error .pyTypeError
    | some archToks =>
      match extractArchFlags archToks with
      | .error e => .error e
      | .ok (bsource, barchall, barchany, archs) =>
        match raw.build_arch with
        | none => .error .needBuildArch
        | some build_arch =>
          .ok {
            source := raw.source
            architecture := archs
            build_source := bsource
            build_archall := barchall
            build_archany := barchany
            binary := raw.binary
            version := raw.version
            build_path := (raw.build_path).getD
              ("/build/" ++ pyFormatOpt raw.source ++ "-" ++ randname)
            build_arch := build_arch
            build_date := raw.build_date
            host_arch := (raw.host_arch).getD build_arch
            checksums := raw.checksums
            build_depends := raw.build_depends
            env := raw.env }

/-- `BuildInfo.get_debian_suite` (first call, `debian_suite` not yet
cached): scan `build_depends`; every entry named `base-files` looks its
**full version string** up in `DEBIAN_VERSION`, raising
`"Cannot determine Debian version"` on a missing key; with no
`base-files` entry the suite stays `None`. -/
def debianSuiteGo (acc : Option String) :
    List Package → Except BuildInfoErr (Option String)
  | [] => .ok acc
  | pkg :: rest =>
      if pkg.name = "base-files" then
        match lookupD DEBIAN_VERSION pkg.version with
        | some suite => debianSuiteGo (some suite) rest
        | none => .error .unknownBaseFiles
      else debianSuiteGo acc rest

/-- Entry point of `get_debian_suite` (see `debianSuiteGo`). -/
def get_debian_suite (deps : List Package) : Except BuildInfoErr (Option String) :=
  debianSuiteGo none deps

/-- A Python `datetime` as returned by `dateutil.parser.parse`: wall-clock
calendar fields plus the parsed UTC offset in minutes (`0` for `+0000`,
`120` for `+0200`, …). -/
structure PyDateTime where
  year : Nat
  month : Nat
  day : Nat
  hour : Nat
  minute : Nat
  second : Nat
  tzoffset : Int
  deriving DecidableEq, Repr

/-- `datetime.strftime("%Y%m%dT%H%M%SZ")`: formats the **wall-clock**
fields of the datetime and appends the literal `Z`; the stored UTC offset
is not consulted. -/
def strftimeYmdTHMSZ (dt : PyDateTime) : String :=
  pad4 dt.year ++ pad2 dt.month ++ pad2 dt.day ++ "T" ++
    pad2 dt.hour ++ pad2 dt.minute ++ pad2 dt.second ++ "Z"

/-- Days since 1970-01-01 of a proleptic Gregorian civil date
(the standard `days_from_civil` algorithm); used only to define when two
parsed datetimes denote the same instant. -/
def daysFromCivil (y m d : Int) : Int :=
  let y' : Int := if m ≤ 2 then y - 1 else y
  let era : Int := (if 0 ≤ y' then y' else y' - 399) / 400
  let yoe : Int := y' - era * 400
  let mp : Int := (m + 9) % 12
  let doy : Int := (153 * mp + 2) / 5 + d - 1
  let doe : Int := yoe * 365 + yoe / 4 - yoe / 100 + doy
  era * 146097 + doe - 719468

/-- The UTC instant of a parsed datetime, in minutes since the epoch
(seconds are carried separately by `sameInstant`). -/
def utcMinutes (dt : PyDateTime) : Int :=
  daysFromCivil dt.year dt.month dt.day * 1440 +
    (dt.hour : Int) * 60 + (dt.minute : Int) - dt.tzoffset

/-- Two parsed datetimes denote the same UTC instant. -/
def sameInstant (a b : PyDateTime) : Prop :=
  utcMinutes a = utcMinutes b ∧ a.second = b.second

instance (a b : PyDateTime) : Decidable (sameInstant a b) :=
  inferInstanceAs (Decidable (_ ∧ _))

/-- Exceptions raised by the `Rebuilder` methods (`RebuilderException`
in the source), one constructor per distinct message relevant here. -/
inductive RebuilderErr where
  /-- `"Cannot parse 'Build-Date': …"`. -/
  | badDate
  /-- `"Package … was explicitly requested … but only … was found"`. -/
  | archMismatchExplicit
  /-- `"Package … was implicitly requested … but only … was found"`. -/
  | archMismatchImplicit
  /-- `"Cannot find package in architecture …"`. -/
  | noArchMatch
  /-- `"More than one package with the same hash in Debian official"`. -/
  | ambiguousBinary
  /-- `"No package with the right hash in Debian official"`. -/
  | noBinaryFound
  deriving DecidableEq, Repr

/-- `BuildInfo.get_build_date`: `parsedate(self.build_date)` followed by
`strftime("%Y%m%dT%H%M%SZ")`; a `ValueError` from the date parser becomes
the `"Cannot parse 'Build-Date'"` error.  The external `dateutil` parser
is abstracted as the `parse` argument. -/
def get_build_date (parse : String → Option PyDateTime) (build_date : String) :
    Except RebuilderErr String :=
  match parse build_date with
  | some dt => .ok (strftimeYmdTHMSZ dt)
  | none => .error .badDate

/-- A concrete fragment of the behaviour of `dateutil.parser.parse` on two
RFC-2822 Build-Date strings (one at `+0200`, one at `+0000`), used to
instantiate `get_build_date`. -/
def demoParse : String → Option PyDateTime := fun s =>
  if s = "Tue, 04 May 2021 12:00:00 +0200" then
    some { year := 2021, month := 5, day := 4, hour := 12, minute := 0, second := 0, tzoffset := 120 }
  else if s = "Tue, 04 May 2021 10:00:00 +0000" then
    some { year := 2021, month := 5, day := 4, hour := 10, minute := 0, second := 0, tzoffset := 0 }
  else none

/-- One entry of the snapshot service's `result` array for
`/mr/binary/<name>/<version>/binfiles`. -/
structure BinResult where
  hash : String
  architecture : String
  deriving DecidableEq, Repr

/-- One entry of the snapshot service's `fileinfo[hash]` arrays. -/
structure FileInfo where
  archive_name : String
  first_seen : String
  deriving DecidableEq, Repr

/-- The parsed JSON body for a `binfiles?fileinfo=1` query. -/
structure BinData where
  result : List BinResult
  fileinfo : List (String × List FileInfo)
  deriving DecidableEq, Repr

/-- Python truthiness of the optional architecture string
(`None` and `""` are falsy). -/
def pyTruthyStr : Option String → Bool
  | none => false
  | some s => if s = "" then false else true

/-- The tail of `Rebuilder.get_bin_date` after a hash was chosen: keep the
`fileinfo[pkghash]` entries with `archive_name == "debian"`; more than
one is ambiguous, none is not found, otherwise fill `first_seen` and
`hash` of the package. -/
def finishBin (data : BinData) (pkg : Package) (pkghash : String) :
    Package × Option RebuilderErr :=
  let entries := ((lookupD data.fileinfo pkghash).getD []).filter
    (fun fi => fi.archive_name = "debian")
  if entries.length > 1 then (pkg, some .ambiguousBinary)
  else
    match entries with
    | [] => (pkg, some .noBinaryFound)
    | fi :: _ =>
        ({ pkg with first_seen := some fi.first_seen, hash := some pkghash }, none)

/-- `Rebuilder.get_bin_date` as a state transformer on the package: the
returned package is the object's final state (mutations before a raise
are kept), the second component is the raised exception if any.  In the
single-result branch the snapshot's architecture is assigned into the
package **before** the mismatch checks. -/
def get_bin_date (build_arch : String) (data : BinData) (pkg : Package) :
    Package × Option RebuilderErr :=
  let pkgarch := pkg.architecture
  match data.result with
  | [r] =>
      let pkg1 := { pkg with architecture := some r.architecture }
      if pyTruthyStr pkgarch = true ∧ pkgarch ≠ some r.architecture then
        (pkg1, some .archMismatchExplicit)
      else if pyTruthyStr pkgarch = false ∧ build_arch ≠ r.architecture ∧
          "all" ≠ r.architecture then
        (pkg1, some .archMismatchImplicit)
      else finishBin data pkg1 r.hash
  | rs =>
      let target := if pyTruthyStr pkgarch = true then pkgarch.getD build_arch else build_arch
      match rs.find? (fun r => r.architecture == target) with
      | none => (pkg, some .noArchMatch)
      | some r => finishBin data { pkg with architecture := some target } r.hash

/-- The bucket key of a build-dependency: `parsedate(pkg.first_seen)
.strftime("%Y%m%dT%H%M%SZ")`, abstracted as `fmt` applied to the stored
`first_seen` (which the theorems require to be populated). -/
def timestampKey (fmt : String → String) (pkg : Package) : String :=
  fmt (pkg.first_seen.getD "")

/-- `required_timestamps.setdefault(key, []).append(pkg)` on an
insertion-ordered dict of lists. -/
def addToBucket (k : String) (p : Package) :
    List (String × List Package) → List (String × List Package)
  | [] => [(k, [p])]
  | (k', ps) :: rest =>
      if k' = k then (k', ps ++ [p]) :: rest else (k', ps) :: addToBucket k p rest

/-- Bucket the build-dependencies by timestamp key, in input order. -/
def bucketsOf (fmt : String → String) (deps : List Package) :
    List (String × List Package) :=
  deps.foldl (fun b p => addToBucket (timestampKey fmt p) p b) []

/-- The comparison used by
`sorted(…, key=lambda x: len(x[1]), reverse=True)`: `a` may precede `b`
iff `a` covers at least as many packages. -/
def covGE (a b : String × List Package) : Prop :=
  b.2.length ≤ a.2.length

instance : DecidableRel covGE := fun a b => Nat.decLe b.2.length a.2.length

instance : IsTotal (String × List Package) covGE :=
  ⟨fun a b => Nat.le_total b.2.length a.2.length⟩

instance : IsTrans (String × List Package) covGE :=
  ⟨fun _ _ _ hab hbc => le_trans hbc hab⟩

/-- `Rebuilder.get_build_depends_timestamps`: bucket by timestamp, then a
stable sort by bucket size, descending (Python's `sorted` is stable and
`List.insertionSort covGE` computes exactly that stable descending
order). -/
def get_build_depends_timestamps (fmt : String → String) (deps : List Package) :
    List (String × List Package) :=
  List.insertionSort covGE (bucketsOf fmt deps)

/-- `"deb {base_mirror}/{timestamp} unstable main"`. -/
def sourceLine (base ts : String) : String :=
  "deb " ++ base ++ "/" ++ ts ++ " unstable main"

/-- `Rebuilder.get_sources_list_from_timestamp`. -/
def get_sources_list_from_timestamp (base : String) (fmt : String → String)
    (deps : List Package) : List (String × List Package) :=
  (get_build_depends_timestamps fmt deps).map (fun x => (sourceLine base x.1, x.2))

/-- `any(pkg in notfound_packages for pkg in pkgs)`. -/
def anyIn (pkgs notfound : List Package) : Bool :=
  pkgs.any (fun p => decide (p ∈ notfound))

/-- The selection loop of `Rebuilder.find_build_dependencies`.  `cache`
abstracts the temporary apt cache: given the currently selected snapshot
source lines it answers whether `name:arch` is installable at the exact
pinned version.  Returns the selected source lines
(`self.required_timestamp_sources`) and the packages still not found
(nonempty means the final `RebuilderException` is raised). -/
def findBuildDepsGo (cache : List String → Package → Bool)
    (selected : List String) (notfound : List Package) :
    List (String × List Package) → List String × List Package
  | [] => (selected, notfound)
  | (src, pkgs) :: rest =>
      if notfound.isEmpty then (selected, notfound)
      else if anyIn pkgs notfound = false then
        findBuildDepsGo cache selected notfound rest
      else
        let selected' := selected ++ [src]
        let notfound' := notfound.filter (fun p => !(cache selected' p))
        findBuildDepsGo cache selected' notfound' rest

/-- `Rebuilder.find_build_dependencies` on its candidate list. -/
def find_build_dependencies (cache : List String → Package → Bool)
    (deps : List Package) (cands : List (String × List Package)) :
    List String × List Package :=
  findBuildDepsGo cache [] deps cands

/-- Errors of `Rebuilder.verify_checksums`: the `RebuilderException`
messages plus an explicit constructor for the raw Python `KeyError`
escaping from `new_buildinfo.checksums[f]` / `…[prop]`. -/
inductive VerifyErr where
  /-- `"New buildinfo contains a different number of files."` -/
  | fileCountDiffers
  /-- `"Size differs for {f}"`. -/
  | sizeDiffers (f : String)
  /-- `"{prop} is not used in both buildinfo files"`. -/
  | missingProp (p : String)
  /-- `"Value of {prop} differs for {f}"`. -/
  | valueDiffers (p f : String)
  /-- A raw Python `KeyError` on key `k` — not a `RebuilderException`. -/
  | keyError (k : String)
  deriving DecidableEq, Repr

/-- `[f for f in checksums.keys() if not f.endswith('.dsc')]`. -/
def nonDscFiles (cs : Checksums) : List String :=
  (cs.map Prod.fst).filter (fun f => !(pyEndsWith f ".dsc"))

/-- The inner property loop of `verify_checksums` for one original file
`f` with property dict `op`, walking the keys `ks` of `op` in order.
Each `new[f]` / `…["size"]` dict indexing is a raw lookup that can raise
`KeyError`. -/
def checkPropsGo (new : Checksums) (f : String) (op : Props) :
    List String → Except VerifyErr Unit
  | [] => .ok ()
  | p :: ps =>
      let sizeStep : Except VerifyErr Unit :=
        if p = "size" then
          match lookupD op "size" with
          | none => .error (.keyError "size")
          | some os =>
            match lookupD new f with
            | none => .error (.keyError f)
            | some np =>
              match lookupD np "size" with
              | none => .error (.keyError "size")
              | some ns => if os ≠ ns then .error (.sizeDiffers f) else .ok ()
        else .ok ()
      match sizeStep with
      | .error e => .error e
      | .ok _ =>
        match lookupD new f with
        | none => .error (.keyError f)
        | some np =>
          if (lookupD np p).isNone then .error (.missingProp p)
          else
            match lookupD op p with
            | none => .error (.keyError p)
            | some ov =>
              match lookupD np p with
              | none => .error (.keyError p)
              | some nv =>
                if ov ≠ nv then .error (.valueDiffers p f)
                else checkPropsGo new f op ps

/-- All property checks for one original file. -/
def checkProps (new : Checksums) (f : String) (op : Props) :
    Except VerifyErr Unit :=
  checkPropsGo new f op (op.map Prod.fst)

/-- The outer file loop of `verify_checksums`. -/
def verifyGo (orig new : Checksums) : List String → Except VerifyErr Unit
  | [] => .ok ()
  | f :: rest =>
      match lookupD orig f with
      | none => .error (.keyError f)
      | some op =>
        match checkProps new f op with
        | .error e => .error e
        | .ok _ => verifyGo orig new rest

/-- `Rebuilder.verify_checksums` on the two checksum maps: compare the
count of non-`.dsc` original filenames against the count of **all** new
filenames, then run the per-file property checks. -/
def verify_checksums (orig new : Checksums) : Except VerifyErr Unit :=
  let files := nonDscFiles orig
  let new_files := new.map Prod.fst
  if files.length ≠ new_files.length then .error .fileCountDiffers
  else verifyGo orig new files

/-! ## Association-list lemmas -/

theorem lookupD_mem {α : Type u} (m : List (String × α)) (k : String)
    (h : k ∈ m.map Prod.fst) : ∃ v, lookupD m k = some v := by
  induction m with
  | nil => simp at h
  | cons kv rest ih =>
    obtain ⟨k', v⟩ := kv
    by_cases hk : k' = k
    · exact ⟨v, by simp [lookupD, hk]⟩
    · have h' : k ∈ rest.map Prod.fst := by
        simp only [List.map_cons, List.mem_cons] at h
        rcases h with h | h
        · exact absurd h.symm hk
        · exact h
      obtain ⟨w, hw⟩ := ih h'
      exact ⟨w, by simp [lookupD, hk, hw]⟩

theorem lookupD_assocUpdate_self {α : Type u} (m : List (String × α))
    (k : String) (v : α) : lookupD (assocUpdate m k v) k = some v := by
  induction m with
  | nil => simp [assocUpdate, lookupD]
  | cons kv rest ih =>
    obtain ⟨k', v'⟩ := kv
    by_cases hk : k' = k
    · simp [assocUpdate, hk, lookupD]
    · simp [assocUpdate, hk, lookupD, ih]

theorem lookupD_assocUpdate_ne {α : Type u} (m : List (String × α))
    (k' k : String) (v : α) (h : k' ≠ k) :
    lookupD (assocUpdate m k' v) k = lookupD m k := by
  induction m with
  | nil => simp [assocUpdate, lookupD, h]
  | cons kv rest ih =>
    obtain ⟨k'', v''⟩ := kv
    by_cases hk : k'' = k'
    · simp [assocUpdate, hk, lookupD, h]
    · simp only [assocUpdate, if_neg hk, lookupD]
      by_cases hk2 : k'' = k <;> simp [hk2, ih]

/-! ## Claim C2 — `get_debian_suite` and the `DEBIAN_VERSION` table -/

/-- Claim C2 (counterexample): the claim says `get_debian_suite` is keyed
by the Debian **major** release and returns `"bullseye"` for
`base-files (= 11.1)`; the code looks the **full** version string up in
`DEBIAN_VERSION`, so `"11.1"` is a missing key and it raises
`"Cannot determine Debian version"` instead. -/
theorem c2_counterexample :
    get_debian_suite [{ name := "base-files", version := "11.1" }] =
      .error .unknownBaseFiles ∧
    get_debian_suite [{ name := "base-files", version := "11.1" }] ≠
      .ok (some "bullseye") := by
  constructor <;> decide

/-- Claim C2 (amended): `get_debian_suite` looks the **full** `base-files`
version string up in the fixed table (`"6"→squeeze, …, "11"→bullseye,
"12"→bookworm`): an exact-key hit returns that suite and any other
version string (such as `"11.1"`) raises `UnknownBaseFiles`. -/
theorem c2_debian_suite_amended (pkg : Package) (suite : String)
    (hname : pkg.name = "base-files") :
    (lookupD DEBIAN_VERSION pkg.version = some suite →
      get_debian_suite [pkg] = .ok (some suite)) ∧
    (lookupD DEBIAN_VERSION pkg.version = none →
      get_debian_suite [pkg] = .error .unknownBaseFiles) ∧
    lookupD DEBIAN_VERSION "11" = some "bullseye" := by
  refine ⟨?_, ?_, by decide⟩ <;> intro h <;>
    simp [get_debian_suite, debianSuiteGo, hname, h]

/-- Claim C2 (witness): the amended theorem applied to
`base-files (= 11)`. -/
theorem c2_witness :
    get_debian_suite [{ name := "base-files", version := "11" }] =
      .ok (some "bullseye") :=
  (c2_debian_suite_amended { name := "base-files", version := "11" }
    "bullseye" rfl).1 (by decide)

/-! ## Claim C8 — architecture flag extraction -/

/-- Claim C8 (counterexample): the claim says any token list that
*includes* `"source"`, `"all"` and exactly one concrete architecture
yields `build_source = true`; the code requires the token to occur
**exactly once** (`len([... if arch == "source"]) == 1`), so the token
list `["source", "source", "all", "amd64"]` — which does include
`"source"`, `"all"` and exactly one concrete arch — gets
`build_source = false`. -/
theorem c8_counterexample :
    ("source" ∈ (["source", "source", "all", "amd64"] : List String) ∧
     "all" ∈ (["source", "source", "all", "amd64"] : List String) ∧
     ((["source", "source", "all", "amd64"] : List String).filter
        (fun a => !(a == "source") && !(a == "all"))).length = 1) ∧
    extractArchFlags ["source", "source", "all", "amd64"] =
      .ok (false, true, true, ["amd64"]) := by
  constructor <;> decide

/-- Claim C8 (amended): for every token list in which `"source"` occurs
exactly once, `"all"` occurs exactly once, and exactly one concrete
architecture remains after filtering those two out, the parser derives
`build_source = build_archall = build_archany = true` and keeps the
singleton concrete-architecture list; and any token list with more than
one remaining concrete architecture fails with `MultipleArch`. -/
theorem c8_arch_flags_amended (l : List String)
    (hs : (l.filter (fun a => a == "source")).length = 1)
    (ha : (l.filter (fun a => a == "all")).length = 1)
    (hc : (l.filter (fun a => !(a == "source") && !(a == "all"))).length = 1) :
    extractArchFlags l =
      .ok (true, true, true,
        l.filter (fun a => !(a == "source") && !(a == "all"))) ∧
    (∀ l' : List String,
      (l'.filter (fun a => !(a == "source") && !(a == "all"))).length > 1 →
      extractArchFlags l' = .error .multipleArch) := by
  constructor
  · simp [extractArchFlags, hs, ha, hc]
  · intro l' h
    simp only [extractArchFlags]
    rw [if_pos h]

/-- Claim C8 (witness): the amended theorem applied to
`Architecture: source all amd64` and, for the `MultipleArch` part, to
`source all amd64 i386`. -/
theorem c8_witness :
    extractArchFlags ["source", "all", "amd64"] =
      .ok (true, true, true, ["amd64"]) ∧
    extractArchFlags ["source", "all", "amd64", "i386"] =
      .error .multipleArch := by
  have h := c8_arch_flags_amended ["source", "all", "amd64"]
    (by decide) (by decide) (by decide)
  exact ⟨by simpa using h.1, h.2 ["source", "all", "amd64", "i386"] (by decide)⟩

/-! ## Claims C5 / C10 — `get_bin_date`, single-result branch -/

theorem finishBin_snd (data : BinData) (pkg : Package) (h : String) :
    (finishBin data pkg h).2 = none ∨
    (finishBin data pkg h).2 = some .ambiguousBinary ∨
    (finishBin data pkg h).2 = some .noBinaryFound := by
  simp only [finishBin]
  split
  · exact Or.inr (Or.inl rfl)
  · split
    · exact Or.inr (Or.inr rfl)
    · exact Or.inl rfl

/-- Claim C5: in the single-result branch of `get_bin_date` the snapshot's
architecture and hash are adopted; a non-empty input architecture
different from the adopted one raises `ArchMismatchExplicit`; an absent
(or empty) input architecture whose adopted value differs from both
`build_arch` and `"all"` raises `ArchMismatchImplicit`; otherwise no
architecture error (`ArchMismatchExplicit`/`ArchMismatchImplicit`/
`NoArchMatch`) is raised in this branch. -/
theorem c5_bin_single_result (build_arch : String) (data : BinData)
    (r : BinResult) (pkg : Package) (hres : data.result = [r]) :
    (pyTruthyStr pkg.architecture = true → pkg.architecture ≠ some r.architecture →
      (get_bin_date build_arch data pkg).2 = some .archMismatchExplicit) ∧
    (pyTruthyStr pkg.architecture = false → build_arch ≠ r.architecture →
      "all" ≠ r.architecture →
      (get_bin_date build_arch data pkg).2 = some .archMismatchImplicit) ∧
    ((pyTruthyStr pkg.architecture = true ∧ pkg.architecture = some r.architecture) ∨
     (pyTruthyStr pkg.architecture = false ∧
        (build_arch = r.architecture ∨ "all" = r.architecture)) →
      (get_bin_date build_arch data pkg).2 ≠ some .archMismatchExplicit ∧
      (get_bin_date build_arch data pkg).2 ≠ some .archMismatchImplicit ∧
      (get_bin_date build_arch data pkg).2 ≠ some .noArchMatch) := by
  obtain ⟨res, fi⟩ := data
  simp only at hres
  subst hres
  refine ⟨?_, ?_, ?_⟩
  · intro ht hne
    simp only [get_bin_date]
    rw [if_pos ⟨ht, hne⟩]
  · intro hf h1 h2
    simp only [get_bin_date]
    rw [if_neg (fun hcon => by rw [hf] at hcon; exact Bool.false_ne_true hcon.1),
        if_pos ⟨hf, h1, h2⟩]
  · rintro (⟨ht, heq⟩ | ⟨hf, hor⟩)
    · simp only [get_bin_date]
      rw [if_neg (fun hcon => hcon.2 heq),
          if_neg (fun hcon => by rw [ht] at hcon; exact Bool.true_eq_false.mp hcon.1)]
      rcases finishBin_snd ⟨[r], fi⟩ { pkg with architecture := some r.architecture }
        r.hash with h | h | h <;> simp [h]
    · simp only [get_bin_date]
      rw [if_neg (fun hcon => by rw [hf] at hcon; exact Bool.false_ne_true hcon.1),
          if_neg (fun hcon => by
            rcases hor with h | h
            · exact hcon.2.1 h
            · exact hcon.2.2 h)]
      rcases finishBin_snd ⟨[r], fi⟩ { pkg with architecture := some r.architecture }
        r.hash with h | h | h <;> simp [h]

/-- Claim C5 (witness): build-dep `foo (= 1.0)` declared with input arch
`i386` while the single binary record reports `amd64` yields
`ArchMismatchExplicit`. -/
theorem c5_witness :
    (get_bin_date "amd64" ⟨[⟨"h1", "amd64"⟩], []⟩
      { name := "foo", version := "1.0", architecture := some "i386" }).2 =
      some .archMismatchExplicit :=
  (c5_bin_single_result "amd64" ⟨[⟨"h1", "amd64"⟩], []⟩ ⟨"h1", "amd64"⟩
    { name := "foo", version := "1.0", architecture := some "i386" } rfl).1
    (by decide) (by decide)

/-- Claim C10: in the single-result branch, whenever `get_bin_date` raises
`ArchMismatchExplicit` or `ArchMismatchImplicit`, the package's
`architecture` field has already been overwritten with the snapshot's
reported value (and in the explicit case the pre-call value was a
different one, so the pre-call state is not restored). -/
theorem c10_arch_overwrite_on_error (build_arch : String) (data : BinData)
    (r : BinResult) (pkg : Package) (hres : data.result = [r])
    (herr : (get_bin_date build_arch data pkg).2 = some .archMismatchExplicit ∨
            (get_bin_date build_arch data pkg).2 = some .archMismatchImplicit) :
    (get_bin_date build_arch data pkg).1.architecture = some r.architecture ∧
    ((get_bin_date build_arch data pkg).2 = some .archMismatchExplicit →
      pkg.architecture ≠ some r.architecture) := by
  obtain ⟨res, fi⟩ := data
  simp only at hres
  subst hres
  by_cases hx : pyTruthyStr pkg.architecture = true ∧
      pkg.architecture ≠ some r.architecture
  · constructor
    · simp only [get_bin_date]
      rw [if_pos hx]
    · intro _; exact hx.2
  · by_cases hi : pyTruthyStr pkg.architecture = false ∧
        build_arch ≠ r.architecture ∧ "all" ≠ r.architecture
    · constructor
      · simp only [get_bin_date]
        rw [if_neg hx, if_pos hi]
      · intro hcon
        simp only [get_bin_date] at hcon
        rw [if_neg hx, if_pos hi] at hcon
        simp at hcon
    · exfalso
      simp only [get_bin_date] at herr
      rw [if_neg hx, if_neg hi] at herr
      rcases finishBin_snd ⟨[r], fi⟩ { pkg with architecture := some r.architecture }
        r.hash with h | h | h <;> rw [h] at herr <;> simp at herr

/-- Claim C10 (witness): applied to the explicit-mismatch scenario; the
package's architecture ends up as the snapshot's `amd64` and the pre-call
`i386` differed from it. -/
theorem c10_witness :
    (get_bin_date "amd64" ⟨[⟨"h1", "amd64"⟩], []⟩
      { name := "foo", version := "1.0", architecture := some "i386" }).1.architecture =
      some "amd64" :=
  (c10_arch_overwrite_on_error "amd64" ⟨[⟨"h1", "amd64"⟩], []⟩ ⟨"h1", "amd64"⟩
    { name := "foo", version := "1.0", architecture := some "i386" } rfl
    (Or.inl (by decide))).1

/-! ## Claim C6 — `get_build_date` -/

/-- Claim C6 (counterexample): the claim says a parseable `Build-Date` is
formatted **in UTC** (the offset normalized away before formatting), so
the output would be a function of the denoted instant; but the code
formats the parsed wall-clock fields with a literal `Z`: two Build-Dates
denoting the same UTC instant (`12:00:00 +0200` and `10:00:00 +0000`)
produce different outputs, and the `+0200` one is rendered as
`…T120000Z` although the UTC instant is `…T100000Z`. -/
theorem c6_counterexample :
    sameInstant
      { year := 2021, month := 5, day := 4, hour := 12, minute := 0,
        second := 0, tzoffset := 120 }
      { year := 2021, month := 5, day := 4, hour := 10, minute := 0,
        second := 0, tzoffset := 0 } ∧
    get_build_date demoParse "Tue, 04 May 2021 12:00:00 +0200" =
      .ok "20210504T120000Z" ∧
    get_build_date demoParse "Tue, 04 May 2021 10:00:00 +0000" =
      .ok "20210504T100000Z" ∧
    ("20210504T120000Z" : String) ≠ "20210504T100000Z" := by
  refine ⟨by decide, by decide, by decide, by decide⟩

/-- Claim C6 (amended): `get_build_date` formats the **wall-clock** fields
of the parsed date with a literal `Z` suffix, performing no UTC
normalization (so the result is the UTC instant only when the parsed
offset is zero), and an unparseable `Build-Date` raises the
`"Cannot parse 'Build-Date'"` error. -/
theorem c6_build_date_amended (parse : String → Option PyDateTime) (s : String) :
    (∀ dt, parse s = some dt →
      get_build_date parse s = .ok (strftimeYmdTHMSZ dt)) ∧
    (parse s = none → get_build_date parse s = .error .badDate) := by
  constructor
  · intro dt h
    simp [get_build_date, h]
  · intro h
    simp [get_build_date, h]

/-- Claim C6 (witness): the amended theorem applied to the `+0200`
Build-Date. -/
theorem c6_witness :
    get_build_date demoParse "Tue, 04 May 2021 12:00:00 +0200" =
      .ok (strftimeYmdTHMSZ
        { year := 2021, month := 5, day := 4, hour := 12, minute := 0,
          second := 0, tzoffset := 120 }) :=
  (c6_build_date_amended demoParse "Tue, 04 May 2021 12:00:00 +0200").1 _ (by decide)

/-! ## Claims C1 / C9 — `verify_checksums` -/

theorem checkPropsGo_ok (new : Checksums) (f : String) (op : Props)
    (hnp : lookupD new f = some op) :
    ∀ ks : List String, (∀ p ∈ ks, ∃ w, lookupD op p = some w) →
      checkPropsGo new f op ks = .ok () := by
  intro ks
  induction ks with
  | nil => intro _; rfl
  | cons p ps ih =>
    intro h
    obtain ⟨w, hw⟩ := h p (List.mem_cons_self p ps)
    have hrest : ∀ q ∈ ps, ∃ u, lookupD op q = some u :=
      fun q hq => h q (List.mem_cons_of_mem p hq)
    by_cases hp : p = "size"
    · subst hp
      simp [checkPropsGo, hw, hnp, ih hrest]
    · simp [checkPropsGo, hp, hw, hnp, ih hrest]

theorem checkPropsGo_missing_new (new : Checksums) (f : String) (op : Props)
    (p : String) (ps : List String) (hw : ∃ w, lookupD op p = some w)
    (hnone : lookupD new f = none) :
    checkPropsGo new f op (p :: ps) = .error (.keyError f) := by
  obtain ⟨w, hw⟩ := hw
  by_cases hp : p = "size"
  · subst hp
    simp [checkPropsGo, hw, hnone]
  · simp [checkPropsGo, hp, hw, hnone]

theorem verifyGo_ok (orig new : Checksums)
    (hsame : ∀ f, lookupD new f = lookupD orig f) :
    ∀ fs : List String, (∀ f ∈ fs, ∃ op, lookupD orig f = some op) →
      verifyGo orig new fs = .ok () := by
  intro fs
  induction fs with
  | nil => intro _; rfl
  | cons f rest ih =>
    intro h
    obtain ⟨op, hop⟩ := h f (List.mem_cons_self f rest)
    have hnew : lookupD new f = some op := by rw [hsame, hop]
    have hcp : checkProps new f op = .ok () :=
      checkPropsGo_ok new f op hnew (op.map Prod.fst)
        (fun p hp => lookupD_mem op p hp)
    simp only [verifyGo, hop, hcp]
    exact ih (fun g hg => h g (List.mem_cons_of_mem f hg))

theorem length_filter_lt_of_mem {α : Type u} (l : List α) (p : α → Bool)
    (a : α) (ha : a ∈ l) (hpa : p a = false) :
    (l.filter p).length < l.length := by
  induction l with
  | nil => cases ha
  | cons x xs ih =>
    by_cases hx : p x = true
    · have hax : a ∈ xs := by
        rcases List.mem_cons.mp ha with h | h
        · rw [h] at hpa; rw [hpa] at hx; cases hx
        · exact h
      simp only [List.filter_cons, hx, if_true, List.length_cons]
      exact Nat.succ_lt_succ (ih hax)
    · simp only [List.filter_cons, hx, if_false, List.length_cons]
      exact Nat.lt_succ_of_le (List.length_filter_le p xs)

/-- Claim C1 (amended): `verify_checksums(b, b)` succeeds for every
checksum map `b` containing no filename ending in `.dsc`; but because the
`.dsc` exclusion is applied only to the original side before the
cardinality comparison, a `b` that does contain a `.dsc` filename makes
`verify_checksums(b, b)` fail with `FileCountDiffers` — the identity law
does **not** extend to such `b`. -/
theorem c1_verify_identity_amended :
    ∀ b : Checksums,
      ((∀ f ∈ b.map Prod.fst, pyEndsWith f ".dsc" = false) →
        verify_checksums b b = .ok ()) ∧
      ((∃ f ∈ b.map Prod.fst, pyEndsWith f ".dsc" = true) →
        verify_checksums b b = .error .fileCountDiffers) := by
  intro b
  constructor
  · intro h
    have hfiles : nonDscFiles b = b.map Prod.fst := by
      apply List.filter_eq_self.mpr
      intro f hf
      simp [h f hf]
    simp only [verify_checksums]
    rw [if_neg (by rw [hfiles]; exact fun hcon => hcon rfl)]
    rw [hfiles]
    exact verifyGo_ok b b (fun _ => rfl) _ (fun f hf => lookupD_mem b f hf)
  · rintro ⟨f, hf, hdsc⟩
    have hlt : (nonDscFiles b).length < (b.map Prod.fst).length := by
      apply length_filter_lt_of_mem _ _ f hf
      simp [hdsc]
    simp only [verify_checksums]
    rw [if_pos (Nat.ne_of_lt hlt)]

/-- Claim C1 (counterexample): the claim asserts the identity law holds
*including* for a `BuildInfo` whose checksums contain a `.dsc` filename;
on such a value the code raises `FileCountDiffers` (one non-`.dsc`
original file vs. two new files). -/
theorem c1_counterexample :
    verify_checksums
      [("x.dsc", [("size", "1"), ("sha256", "aa")]),
       ("a.deb", [("size", "2"), ("sha256", "bb")])]
      [("x.dsc", [("size", "1"), ("sha256", "aa")]),
       ("a.deb", [("size", "2"), ("sha256", "bb")])] =
      .error .fileCountDiffers ∧
    verify_checksums
      [("x.dsc", [("size", "1"), ("sha256", "aa")]),
       ("a.deb", [("size", "2"), ("sha256", "bb")])]
      [("x.dsc", [("size", "1"), ("sha256", "aa")]),
       ("a.deb", [("size", "2"), ("sha256", "bb")])] ≠ .ok () := by
  constructor <;> decide

/-- Claim C1 (witness): the amended identity law applied to a checksum
map with no `.dsc` entry, and the `FileCountDiffers` half applied to one
with a `.dsc` entry. -/
theorem c1_witness :
    verify_checksums [("a.deb", [("size", "2"), ("sha256", "bb")])]
      [("a.deb", [("size", "2"), ("sha256", "bb")])] = .ok () ∧
    verify_checksums [("y.dsc", [("size", "3")])]
      [("y.dsc", [("size", "3")])] = .error .fileCountDiffers :=
  ⟨(c1_verify_identity_amended [("a.deb", [("size", "2"), ("sha256", "bb")])]).1
      (by decide),
   (c1_verify_identity_amended [("y.dsc", [("size", "3")])]).2
      ⟨"y.dsc", by decide, by decide⟩⟩

theorem verifyGo_keyError (orig new : Checksums) (f : String) (op : Props)
    (hnew : lookupD new f = none) (hop : lookupD orig f = some op)
    (hne : op ≠ []) :
    ∀ fs : List String, f ∈ fs →
      (∀ g ∈ fs, g ≠ f → lookupD new g = lookupD orig g) →
      (∀ g ∈ fs, ∃ pg, lookupD orig g = some pg) →
      verifyGo orig new fs = .error (.keyError f) := by
  intro fs
  induction fs with
  | nil => intro h; cases h
  | cons g rest ih =>
    intro hmem hoth hex
    by_cases hg : g = f
    · subst hg
      have hcp : checkProps new g op = .error (.keyError g) := by
        cases hopc : op with
        | nil => exact absurd hopc hne
        | cons hd tl =>
          obtain ⟨p0, w0⟩ := hd
          simp only [checkProps, hopc, List.map_cons]
          exact checkPropsGo_missing_new new g ((p0, w0) :: tl) p0 (tl.map Prod.fst)
            ⟨w0, by simp [lookupD]⟩ hnew
      simp only [verifyGo, hop, hcp]
    · have hf : f ∈ rest := by
        rcases List.mem_cons.mp hmem with h | h
        · exact absurd h.symm hg
        · exact h
      obtain ⟨pg, hpg⟩ := hex g (List.mem_cons_self g rest)
      have hng : lookupD new g = some pg := by
        rw [hoth g (List.mem_cons_self g rest) hg, hpg]
      have hcp : checkProps new g pg = .ok () :=
        checkPropsGo_ok new g pg hng (pg.map Prod.fst)
          (fun p hp => lookupD_mem pg p hp)
      simp only [verifyGo, hpg, hcp]
      exact ih hf (fun q hq hqf => hoth q (List.mem_cons_of_mem g hq) hqf)
        (fun q hq => hex q (List.mem_cons_of_mem g hq))

/-- Claim C9: when the file-count comparison passes but some non-`.dsc`
original filename is absent from the rebuilt checksum map,
`verify_checksums` escapes with a raw Python `KeyError` on that filename
(the `keyError` constructor, outside the `RebuilderException` taxonomy)
when it dereferences `new_buildinfo.checksums[f]`, rather than raising a
`MissingChecksumAlg`/`FileCountDiffers`-style error. -/
theorem c9_missing_file_keyerror (orig new : Checksums) (f : String) (op : Props)
    (hlen : (nonDscFiles orig).length = (new.map Prod.fst).length)
    (hmem : f ∈ nonDscFiles orig)
    (hnew : lookupD new f = none)
    (hop : lookupD orig f = some op) (hne : op ≠ [])
    (hoth : ∀ g ∈ nonDscFiles orig, g ≠ f → lookupD new g = lookupD orig g) :
    verify_checksums orig new = .error (.keyError f) := by
  simp only [verify_checksums]
  rw [if_neg (fun hcon => hcon hlen)]
  exact verifyGo_keyError orig new f op hnew hop hne (nonDscFiles orig) hmem hoth
    (fun g hg => lookupD_mem orig g (List.mem_of_mem_filter hg))

/-- Claim C9 (witness): original files `a`, `b`; rebuilt files `a`, `c`.
Counts match, `b` is missing from the rebuilt map, and the verifier
raises `KeyError "b"`. -/
theorem c9_witness :
    verify_checksums [("a", [("size", "1")]), ("b", [("size", "2")])]
      [("a", [("size", "1")]), ("c", [("size", "9")])] =
      .error (.keyError "b") :=
  c9_missing_file_keyerror
    [("a", [("size", "1")]), ("b", [("size", "2")])]
    [("a", [("size", "1")]), ("c", [("size", "9")])]
    "b" [("size", "2")]
    (by decide) (by decide) (by decide) (by decide) (by decide)
    (by decide)

/-! ## Claim C3 — checksum size merging -/

/-- Claim C3 (counterexample): the claim says an input in which the same
filename carries different sizes in two `Checksums-<alg>` paragraphs does
not yield a valid `BuildInfo`; but parsing a buildinfo whose
`Checksums-Sha1` line says size `100` and whose `Checksums-Sha256` line
says size `200` for the same file `f` succeeds, silently keeping the
**last** paragraph's size `200`. -/
theorem c3_counterexample :
    parseBuildInfo "R"
      [("Architecture", "amd64"), ("Build-Architecture", "amd64"),
       ("Checksums-Sha1", "h1 100 f"), ("Checksums-Sha256", "h2 200 f")] =
    .ok { source := none, architecture := ["amd64"], build_source := false,
          build_archall := false, build_archany := true, binary := none,
          version := none, build_path := "/build/None-R",
          build_arch := "amd64", build_date := none, host_arch := "amd64",
          checksums := [("f", [("size", "200"), ("sha1", "h1"), ("sha256", "h2")])],
          build_depends := [], env := [] } := by
  decide

/-- Claim C3 (amended): processing a `Checksums-<alg>` line for filename
`f` unconditionally sets `f`'s recorded `size` to **this** line's size and
adds the algorithm's hash, overwriting any size previously recorded for
`f` by an earlier paragraph: the parser enforces no cross-paragraph size
consistency. -/
theorem c3_checksums_amended (cs : Checksums) (alg : String)
    (toks : List String) (f sz hv : String)
    (h2 : toks.get? 2 = some f) (h1 : toks.get? 1 = some sz)
    (h0 : toks.get? 0 = some hv) (halg : alg ≠ "size") :
    (checksumLineApply cs alg toks).map
        (fun cs' => (lookupD cs' f).map
          (fun ps => (lookupD ps "size", lookupD ps alg))) =
      .ok (some (some sz, some hv)) := by
  unfold checksumLineApply
  rw [h2, h1, h0]
  simp only [Except.map, Option.map_some, Option.map_some', lookupD_assocUpdate_self]
  rw [lookupD_assocUpdate_ne _ _ _ _ halg, lookupD_assocUpdate_self]

/-- Claim C3 (witness): a second paragraph's line `h2 200 f` overwrites a
previously recorded size `100` for `f` with `200`. -/
theorem c3_witness :
    (checksumLineApply [("f", [("size", "100"), ("sha1", "h1")])] "sha256"
        ["h2", "200", "f"]).map
        (fun cs' => (lookupD cs' "f").map
          (fun ps => (lookupD ps "size", lookupD ps "sha256"))) =
      .ok (some (some "200", some "h2")) :=
  c3_checksums_amended [("f", [("size", "100"), ("sha1", "h1")])] "sha256"
    ["h2", "200", "f"] "f" "200" "h2" rfl rfl rfl (by decide)

/-! ## Claim C7 — `Environment` line parsing -/

theorem matchLastSep_none (s : List Char) :
    ∀ acc : List Char, '=' ∉ s →
      matchLastSep ['=', '"'] '"' acc s = none := by
  induction s with
  | nil => intro acc _; rfl
  | cons c rest ih =>
    intro acc h
    have hc : ¬(c = '=') := fun hcon => h (hcon ▸ List.mem_cons_self c rest)
    have hr : '=' ∉ rest := fun hcon => h (List.mem_cons_of_mem c hcon)
    rw [matchLastSep, ih (acc ++ [c]) hr]
    have hpre : (['=', '"'] : List Char).isPrefixOf (c :: rest) = false := by
      simp [List.isPrefixOf]
      intro hcon
      exact absurd hcon.symm hc
    rw [hpre]
    rfl

theorem matchLastSep_skip (key : List Char) :
    ∀ acc s : List Char, '=' ∉ key →
      matchLastSep ['=', '"'] '"' acc (key ++ s) =
      matchLastSep ['=', '"'] '"' (acc ++ key) s := by
  induction key with
  | nil => intro acc s _; simp
  | cons k ks ih =>
    intro acc s hk
    have hkc : ¬(k = '=') := fun hcon => hk (hcon ▸ List.mem_cons_self k ks)
    have hks : '=' ∉ ks := fun hcon => hk (List.mem_cons_of_mem k hcon)
    have hpre : (['=', '"'] : List Char).isPrefixOf (k :: (ks ++ s)) = false := by
      simp [List.isPrefixOf]
      intro hcon
      exact absurd hcon.symm hkc
    show matchLastSep ['=', '"'] '"' acc (k :: (ks ++ s)) = _
    rw [matchLastSep, ih (acc ++ [k]) s hks, hpre]
    rw [show acc ++ k :: ks = (acc ++ [k]) ++ ks by simp]
    cases matchLastSep ['=', '"'] '"' (acc ++ [k] ++ ks) s <;> rfl

theorem beforeLastChar_append (v : List Char) (h : '"' ∉ v) :
    beforeLastChar '"' (v ++ ['"']) = some v := by
  induction v with
  | nil => rfl
  | cons a rest ih =>
    have ha : ¬(a = '"') := fun hcon => h (hcon ▸ List.mem_cons_self a rest)
    have hr : '"' ∉ rest := fun hcon => h (List.mem_cons_of_mem a hcon)
    show beforeLastChar '"' (a :: (rest ++ ['"'])) = _
    rw [beforeLastChar, ih hr]

theorem matchLastSep_hit (acc v : List Char) (hv : '=' ∉ v) (hq : '"' ∉ v) :
    matchLastSep ['=', '"'] '"' acc ('=' :: '"' :: (v ++ ['"'])) =
      some (acc, v) := by
  have hnone : matchLastSep ['=', '"'] '"' (acc ++ ['=']) ('"' :: (v ++ ['"'])) = none := by
    apply matchLastSep_none
    intro hcon
    rcases List.mem_cons.mp hcon with h | h
    · cases h
    · rcases List.mem_append.mp h with h' | h'
      · exact hv h'
      · simp at h'
  rw [matchLastSep, hnone]
  have hpre : (['=', '"'] : List Char).isPrefixOf
      ('=' :: '"' :: (v ++ ['"'])) = true := by
    simp [List.isPrefixOf]
  rw [hpre]
  simp [beforeLastChar_append v hq]

theorem dropWhile_eq_self_of_false {α : Type u} (p : α → Bool) (l : List α)
    (h : ∀ c ∈ l, p c = false) : l.dropWhile p = l := by
  cases l with
  | nil => rfl
  | cons a t =>
    rw [List.dropWhile_cons, h a (List.mem_cons_self a t)]
    simp

theorem pyStripL_eq_self (l : List Char)
    (h : ∀ c ∈ l, c.isWhitespace = false) : pyStripL l = l := by
  unfold pyStripL
  rw [dropWhile_eq_self_of_false _ l h,
    dropWhile_eq_self_of_false _ l.reverse
      (fun c hc => h c (List.mem_reverse.mp hc)),
    List.reverse_reverse]

/-- Claim C7 (counterexample): the claim says a folded line of the exact
form `KEY="VALUE"` stores `env[KEY] = VALUE` and a malformed line raises
`InvalidField`; but the regex `^[^=](.*)="(.*)"` consumes the line's
first character outside group 1, so the line `AB="v"` stores
`env["B"] = "v"` (not `env["AB"]`), and a non-matching line such as
`FOO` is silently skipped, leaving `env` unchanged with no error. -/
theorem c7_counterexample :
    envLineStep [] "AB=\"v\"".data = [("B", "v")] ∧
    envLineStep [] "AB=\"v\"".data ≠ [("AB", "v")] ∧
    envLineStep [] "FOO".data = [] := by
  refine ⟨by decide, by decide, by decide⟩

/-- Claim C7 (amended): for a folded `Environment` line consisting of a
leading fold character (the space) followed by `KEY="VALUE"` — `KEY`
nonempty of non-whitespace characters without `'='`/`'"'`, `VALUE`
without `'='`/`'"'` and strip-stable — the parser stores
`env[KEY] = VALUE` (the regex's consumed first character being the fold
space); and any line the regex does not match is silently skipped with
`env` unchanged (no `InvalidField` error is raised). -/
theorem c7_env_amended (env : List (String × String)) (key v : List Char)
    (hk1 : '=' ∉ key) (hk2 : ∀ c ∈ key, c.isWhitespace = false)
    (hv1 : '=' ∉ v) (hv2 : '"' ∉ v) (hv3 : pyStripL v = v) :
    envLineStep env (' ' :: (key ++ '=' :: '"' :: (v ++ ['"']))) =
      assocUpdate env ⟨key⟩ ⟨v⟩ ∧
    (∀ (env' : List (String × String)) (line : List Char),
      envMatchLine line = none → envLineStep env' line = env') := by
  constructor
  · have hm : envMatchLine (' ' :: (key ++ '=' :: '"' :: (v ++ ['"']))) =
        some (key, v) := by
      simp only [envMatchLine]
      rw [if_neg (by decide)]
      rw [matchLastSep_skip key [] _ hk1]
      simpa using matchLastSep_hit key v hv1 hv2
    simp only [envLineStep, hm, pyStripL_eq_self key hk2, hv3]
  · intro env' line h
    simp [envLineStep, h]

/-- Claim C7 (witness): the amended theorem applied to the folded line
`␣LC_ALL="C"`. -/
theorem c7_witness :
    envLineStep [] (' ' :: ("LC_ALL".data ++ '=' :: '"' :: ("C".data ++ ['"']))) =
      assocUpdate [] ⟨"LC_ALL".data⟩ ⟨"C".data⟩ :=
  (c7_env_amended [] "LC_ALL".data "C".data (by decide) (by decide)
    (by decide) (by decide) (by decide)).1

/-! ## Claim C4 — resolver candidate ordering and the coverage scenario -/

/-- Claim C4: the candidate snapshot sources are sorted by bucket size
descending (every later candidate covers at most as many packages as an
earlier one, with ties keeping the stable insertion order); consequently,
for ten build-deps of which nine share `first_seen = T1` and one has
`first_seen = T2` (with distinct formatted timestamps, and with the apt
cache not offering the `T2` package from the `T1` source alone), the
resolver selects the `T1` source first, then the `T2` source, and the
final selected-sources list has length exactly 2. -/
theorem c4_resolver_ordering
    (fmt : String → String) (base T1 T2 : String)
    (p1 p2 p3 p4 p5 p6 p7 p8 p9 p10 : Package)
    (cache : List String → Package → Bool)
    (h1 : p1.first_seen = some T1) (h2 : p2.first_seen = some T1)
    (h3 : p3.first_seen = some T1) (h4 : p4.first_seen = some T1)
    (h5 : p5.first_seen = some T1) (h6 : p6.first_seen = some T1)
    (h7 : p7.first_seen = some T1) (h8 : p8.first_seen = some T1)
    (h9 : p9.first_seen = some T1) (h10 : p10.first_seen = some T2)
    (hT : fmt T1 ≠ fmt T2)
    (hc : cache [sourceLine base (fmt T1)] p10 = false) :
    (∀ (g : String → String) (ds : List Package),
      List.Sorted covGE (get_build_depends_timestamps g ds)) ∧
    get_sources_list_from_timestamp base fmt
        [p1, p2, p3, p4, p5, p6, p7, p8, p9, p10] =
      [(sourceLine base (fmt T1), [p1, p2, p3, p4, p5, p6, p7, p8, p9]),
       (sourceLine base (fmt T2), [p10])] ∧
    (find_build_dependencies cache [p1, p2, p3, p4, p5, p6, p7, p8, p9, p10]
        (get_sources_list_from_timestamp base fmt
          [p1, p2, p3, p4, p5, p6, p7, p8, p9, p10])).1 =
      [sourceLine base (fmt T1), sourceLine base (fmt T2)] ∧
    (find_build_dependencies cache [p1, p2, p3, p4, p5, p6, p7, p8, p9, p10]
        (get_sources_list_from_timestamp base fmt
          [p1, p2, p3, p4, p5, p6, p7, p8, p9, p10])).1.length = 2 := by
  have hsorted : ∀ (g : String → String) (ds : List Package),
      List.Sorted covGE (get_build_depends_timestamps g ds) :=
    fun g ds => List.sorted_insertionSort covGE (bucketsOf g ds)
  have hbuckets : bucketsOf fmt [p1, p2, p3, p4, p5, p6, p7, p8, p9, p10] =
      [(fmt T1, [p1, p2, p3, p4, p5, p6, p7, p8, p9]), (fmt T2, [p10])] := by
    simp [bucketsOf, timestampKey, addToBucket,
      h1, h2, h3, h4, h5, h6, h7, h8, h9, h10, hT]
  have hcands : get_sources_list_from_timestamp base fmt
      [p1, p2, p3, p4, p5, p6, p7, p8, p9, p10] =
      [(sourceLine base (fmt T1), [p1, p2, p3, p4, p5, p6, p7, p8, p9]),
       (sourceLine base (fmt T2), [p10])] := by
    simp only [get_sources_list_from_timestamp, get_build_depends_timestamps,
      hbuckets, List.insertionSort, List.orderedInsert]
    rw [if_pos (by simp [covGE])]
    simp
  refine ⟨hsorted, hcands, ?_⟩
  rw [hcands]
  have hsel : (find_build_dependencies cache
      [p1, p2, p3, p4, p5, p6, p7, p8, p9, p10]
      [(sourceLine base (fmt T1), [p1, p2, p3, p4, p5, p6, p7, p8, p9]),
       (sourceLine base (fmt T2), [p10])]).1 =
      [sourceLine base (fmt T1), sourceLine base (fmt T2)] := by
    simp only [find_build_dependencies, findBuildDepsGo]
    rw [if_neg (by simp), if_neg (by simp [anyIn])]
    have hmem : p10 ∈ ([p1, p2, p3, p4, p5, p6, p7, p8, p9, p10].filter
        (fun p => !(cache ([] ++ [sourceLine base (fmt T1)]) p))) := by
      apply List.mem_filter.mpr
      refine ⟨by simp, ?_⟩
      simp only [List.nil_append]
      rw [hc]
      rfl
    rw [if_neg (by
      intro hcon
      rw [List.isEmpty_iff] at hcon
      rw [hcon] at hmem
      cases hmem)]
    rw [if_neg (by simp [anyIn, hmem, hc])]
    simp [findBuildDepsGo]
  exact ⟨hsel, by rw [hsel]; rfl⟩

/-- Claim C4 (witness): the scenario instantiated with ten concrete
packages, `fmt = id`, and a cache that answers `false` (so each bucket's
source is selected in order). -/
theorem c4_witness :
    (find_build_dependencies (fun _ _ => false)
        [{ name := "a1", version := "1", first_seen := some "X" },
         { name := "a2", version := "1", first_seen := some "X" },
         { name := "a3", version := "1", first_seen := some "X" },
         { name := "a4", version := "1", first_seen := some "X" },
         { name := "a5", version := "1", first_seen := some "X" },
         { name := "a6", version := "1", first_seen := some "X" },
         { name := "a7", version := "1", first_seen := some "X" },
         { name := "a8", version := "1", first_seen := some "X" },
         { name := "a9", version := "1", first_seen := some "X" },
         { name := "b", version := "1", first_seen := some "Y" }]
        (get_sources_list_from_timestamp "http://snap" id
          [{ name := "a1", version := "1", first_seen := some "X" },
           { name := "a2", version := "1", first_seen := some "X" },
           { name := "a3", version := "1", first_seen := some "X" },
           { name := "a4", version := "1", first_seen := some "X" },
           { name := "a5", version := "1", first_seen := some "X" },
           { name := "a6", version := "1", first_seen := some "X" },
           { name := "a7", version := "1", first_seen := some "X" },
           { name := "a8", version := "1", first_seen := some "X" },
           { name := "a9", version := "1", first_seen := some "X" },
           { name := "b", version := "1", first_seen := some "Y" }])).1 =
      [sourceLine "http://snap" (id "X"), sourceLine "http://snap" (id "Y")] :=
  (c4_resolver_ordering id "http://snap" "X" "Y"
    { name := "a1", version := "1", first_seen := some "X" }
    { name := "a2", version := "1", first_seen := some "X" }
    { name := "a3", version := "1", first_seen := some "X" }
    { name := "a4", version := "1", first_seen := some "X" }
    { name := "a5", version := "1", first_seen := some "X" }
    { name := "a6", version := "1", first_seen := some "X" }
    { name := "a7", version := "1", first_seen := some "X" }
    { name := "a8", version := "1", first_seen := some "X" }
    { name := "a9", version := "1", first_seen := some "X" }
    { name := "b", version := "1", first_seen := some "Y" }
    (fun _ _ => false) rfl rfl rfl rfl rfl rfl rfl rfl rfl rfl
    (by decide) rfl).2.2.1

end Debrebuild
